import Mathlib

/-!
# Verification of backend/transcribe.py

A shallow embedding of the whisper CLI wrapper in backend/transcribe.py.
The script parses a required audio-file path and an optional language code,
checks the file exists, loads the whisper model, transcribes, and prints a
one-key JSON object to stdout on success or to stderr on failure.

The external world (the filesystem queried through os.path.exists, and the
whisper library queried through whisper.load_model and model.transcribe) is
an oracle `Env`; exceptions raised by the library are `Except.error` carrying
the text of str(e).  A run is summarised by a `RunResult`: the process exit
code, the lines printed to stdout and to stderr (print appends a newline,
which the line-list abstracts), and the trace of calls made into the whisper
library (used to state that the model is, or is not, invoked).
-/

namespace TranscribePy

/-! ## json.dumps on the dictionaries the script builds

backend/transcribe.py serializes only flat one-key dictionaries mapping a
string key to a string value.  `jsonDumps` reproduces json.dumps with its
default options on such dictionaries: separators ", " and ": ", and
ensure_ascii, which escapes every character outside 0x20-0x7e with a
\uXXXX escape (a surrogate pair above 0xFFFF), lowercase hex digits. -/

/-- Lowercase hexadecimal digit, as Python json.dumps emits in \uXXXX. -/
def hexDigit (n : Nat) : Char :=
  if n < 10 then Char.ofNat (48 + n) else Char.ofNat (87 + n)

/-- A four-digit \uXXXX escape for a code unit below 0x10000. -/
def uEsc (n : Nat) : String :=
  "\\u" ++ String.mk [hexDigit (n / 4096 % 16), hexDigit (n / 256 % 16),
                      hexDigit (n / 16 % 16), hexDigit (n % 16)]

/-- How json.dumps (ensure_ascii=True, the default) renders one character of
a string value: the two-character escapes for quote, backslash and the usual
control characters, \uXXXX for the rest outside printable ASCII, surrogate
pairs above the basic plane, and the character itself otherwise. -/
def escapeChar (c : Char) : String :=
  if c = '"' then "\\\""
  else if c = '\\' then "\\\\"
  else if c = '\n' then "\\n"
  else if c = '\r' then "\\r"
  else if c = '\t' then "\\t"
  else if c.toNat = 8 then "\\b"
  else if c.toNat = 12 then "\\f"
  else if c.toNat < 32 ∨ c.toNat > 126 then
    if c.toNat < 65536 then uEsc c.toNat
    else uEsc (55296 + (c.toNat - 65536) / 1024) ++
         uEsc (56320 + (c.toNat - 65536) % 1024)
  else String.singleton c

/-- A JSON string literal: the escaped characters between double quotes. -/
def jsonString (s : String) : String :=
  "\"" ++ String.join (s.data.map escapeChar) ++ "\""

/-- json.dumps of a flat dictionary with string keys and string values,
default separators. -/
def jsonDumps (fields : List (String × String)) : String :=
  "\x7b" ++
    String.intercalate ", "
      (fields.map fun kv => jsonString kv.1 ++ ": " ++ jsonString kv.2) ++
  "\x7d"

/-! ## The external world -/

/-- The dictionary model.transcribe returns.  The script reads only the
"text" entry; the other entries (segments, detected language, ...) are the
metadata it discards.  Values are kept as strings: the one value the script
touches, result["text"], is a string. -/
structure WhisperResult where
  fields : List (String × String)

/-- One call the script makes into the whisper library. -/
inductive Event
  | loadModel (size : String)
  | transcribe (filePath : String) (fp16 : Bool) (language : Option String)
deriving DecidableEq

/-- The oracle for everything outside the script: os.path.exists, and the
whisper library.  loadModel and transcribe return Except.error m when the
corresponding Python call raises an exception e with str(e) = m. -/
structure Env where
  fileExists : String → Bool
  loadModel : String → Except String Unit
  transcribe : String → Bool → Option String → Except String WhisperResult

/-- Everything observable about one process invocation: exit code, the lines
printed to stdout and to stderr, and the calls made into whisper. -/
structure RunResult where
  exitCode : Nat
  stdout : List String
  stderr : List String
  events : List Event
deriving DecidableEq

/-! ## The script -/

/-- backend/transcribe.py:13 MODEL_SIZE. -/
def MODEL_SIZE : String := "base"

/-- backend/transcribe.py:17 USE_FP16. -/
def USE_FP16 : Bool := false

/-- backend/transcribe.py:44 — the f-string of the file-not-found error. -/
def notFoundMessage (file_path : String) : String :=
  "Archivo de audio no encontrado: " ++ file_path

/-- backend/transcribe.py:70 — the f-string wrapping str(e) of a caught
exception. -/
def transcribeErrorMessage (e : String) : String :=
  "Error durante el proceso de transcripción: " ++ e

/-- backend/transcribe.py:21-76 transcribe_audio.  The existence check comes
first; inside the try block the model is loaded, transcribe is called, and
the success line is printed from result["text"] — a lookup that, when the
key is absent, raises KeyError, whose str(e) is the quoted key, caught by
the same except clause.  Normal return from the function lets the main block
finish, so the process exit code on the success path is 0. -/
def transcribe_audio (env : Env) (file_path : String)
    (language_code : Option String) : RunResult :=
  if env.fileExists file_path = false then
    { exitCode := 1, stdout := [],
      stderr := [jsonDumps [("error", notFoundMessage file_path)]],
      events := [] }
  else
    match env.loadModel MODEL_SIZE with
    | Except.error e =>
      { exitCode := 1, stdout := [],
        stderr := [jsonDumps [("error", transcribeErrorMessage e)]],
        events := [Event.loadModel MODEL_SIZE] }
    | Except.ok _ =>
      match env.transcribe file_path USE_FP16 language_code with
      | Except.error e =>
        { exitCode := 1, stdout := [],
          stderr := [jsonDumps [("error", transcribeErrorMessage e)]],
          events := [Event.loadModel MODEL_SIZE,
                     Event.transcribe file_path USE_FP16 language_code] }
      | Except.ok result =>
        match result.fields.lookup "text" with
        | none =>
          { exitCode := 1, stdout := [],
            stderr := [jsonDumps [("error",
                         transcribeErrorMessage "\x27text\x27")]],
            events := [Event.loadModel MODEL_SIZE,
                       Event.transcribe file_path USE_FP16 language_code] }
        | some text =>
          { exitCode := 0,
            stdout := [jsonDumps [("transcription", text)]],
            stderr := [],
            events := [Event.loadModel MODEL_SIZE,
                       Event.transcribe file_path USE_FP16 language_code] }

/-! ## The argument parser

backend/transcribe.py:81-107 builds an argparse parser with one required
positional (audio_file), one value-taking option (-l and --language), and the
automatic -h and --help.  The definitions below model the documented behavior of
Python argparse for exactly this parser: a token that does not begin with
"-" (or is the lone "-") is a positional; -h and --help prints help to stdout
and exits 0; -l and --language consumes the next token unless that token itself
looks like an option, in which case parsing fails; --language=VALUE and
-lVALUE attach the value; "--" ends option processing; any other
option-like token, a missing positional, an extra positional, or a missing
option value makes parse_args call parser.error, which prints the usage
line and the message to stderr and exits with code 2.  Not modelled, because
no theorem depends on such inputs: unambiguous prefix abbreviations of
--language, the negative-number exception in option detection, and that real
argparse reports unrecognized tokens only after the scan finishes. -/

/-- Whether argparse treats a token as an option: it begins with "-" and has
at least one more character (the lone "-" is a positional). -/
def isOptionLike (s : String) : Bool :=
  match s.data with
  | '-' :: _ :: _ => true
  | _ => false

/-- Strip a literal character prefix, returning the rest when it matches. -/
def dropPrefixChars : List Char → List Char → Option (List Char)
  | [], cs => some cs
  | p :: ps, c :: cs => if c = p then dropPrefixChars ps cs else none
  | _ :: _, [] => none

/-- Outcome of parse_args: the parsed (audio_file, language), a help request,
or a parse error (argparse parser.error, exit code 2). -/
inductive ParseOutcome
  | ok (audioFile : String) (language : Option String)
  | help
  | err (msg : String)
deriving DecidableEq

/-- End of the token scan: exactly one positional is required. -/
def finishParse : List String → Option String → ParseOutcome
  | [], _ => ParseOutcome.err "the following arguments are required: audio_file"
  | [f], lang => ParseOutcome.ok f lang
  | _ :: extra :: _, _ =>
      ParseOutcome.err ("unrecognized arguments: " ++ extra)

/-- The token scan of parse_args for this parser; accumulates the positional
tokens and the last value given for -l and --language. -/
def parseLoop : List String → List String → Option String → ParseOutcome
  | [], pos, lang => finishParse pos lang
  | tok :: rest, pos, lang =>
    if isOptionLike tok = false then
      parseLoop rest (pos ++ [tok]) lang
    else if tok = "--" then
      finishParse (pos ++ rest) lang
    else if tok = "-h" ∨ tok = "--help" then
      ParseOutcome.help
    else if tok = "-l" ∨ tok = "--language" then
      match rest with
      | [] => ParseOutcome.err "argument -l/--language: expected one argument"
      | v :: rest2 =>
        if isOptionLike v then
          ParseOutcome.err "argument -l/--language: expected one argument"
        else
          parseLoop rest2 pos (some v)
    else
      match dropPrefixChars ("--language=").data tok.data with
      | some valChars => parseLoop rest pos (some (String.mk valChars))
      | none =>
        match dropPrefixChars ("-l").data tok.data with
        | some valChars => parseLoop rest pos (some (String.mk valChars))
        | none => ParseOutcome.err ("unrecognized arguments: " ++ tok)

/-- parse_args on argv with the program name stripped. -/
def parseArgs (argv : List String) : ParseOutcome :=
  parseLoop argv [] none

/-- The usage line argparse generates for this parser (its exact wording is
immaterial to every theorem below; what matters is that it is usage text and
in particular does not begin with a brace). -/
def usageText : String :=
  "usage: transcribe.py [-h] [-l LANGUAGE] audio_file"

/-- The help text parser.print_help emits: the usage line followed by the
description and the argument list. -/
def helpText : String :=
  usageText ++
  "\n\nTranscribe un archivo de audio utilizando OpenAI Whisper."

/-- What parser.error prints to stderr before exiting with code 2. -/
def errorText (msg : String) : String :=
  usageText ++ "\ntranscribe.py: error: " ++ msg

/-- backend/transcribe.py:81-107, the main block: with an empty argument
list (len(sys.argv) == 1) it prints the help to stderr and exits 1;
otherwise parse_args runs (help to stdout and exit 0 on -h; usage and
message to stderr and exit 2 on a parse error) and transcribe_audio is
called on the parsed arguments. -/
def mainProgram (env : Env) (argv : List String) : RunResult :=
  if argv = [] then
    { exitCode := 1, stdout := [], stderr := [helpText], events := [] }
  else
    match parseArgs argv with
    | ParseOutcome.help =>
      { exitCode := 0, stdout := [helpText], stderr := [], events := [] }
    | ParseOutcome.err m =>
      { exitCode := 2, stdout := [], stderr := [errorText m], events := [] }
    | ParseOutcome.ok f lang => transcribe_audio env f lang


/-! ## Sample environments

Concrete oracles used to evaluate the theorems on closed inputs. -/

/-- A world where every path exists and transcription returns the text
"hola mundo". -/
def envOk : Env :=
  { fileExists := fun _ => true,
    loadModel := fun _ => Except.ok (),
    transcribe := fun _ _ _ => Except.ok ⟨[("text", "hola mundo")]⟩ }

/-- A world where no path exists. -/
def envMissing : Env :=
  { fileExists := fun _ => false,
    loadModel := fun _ => Except.ok (),
    transcribe := fun _ _ _ => Except.ok ⟨[("text", "hola mundo")]⟩ }

/-- A world where whisper.load_model raises. -/
def envLoadFail : Env :=
  { fileExists := fun _ => true,
    loadModel := fun _ => Except.error "failed to fetch model weights",
    transcribe := fun _ _ _ => Except.ok ⟨[("text", "hola mundo")]⟩ }

/-- A world where the path exists (say, a directory) but model.transcribe
rejects it. -/
def envBadAudio : Env :=
  { fileExists := fun _ => true,
    loadModel := fun _ => Except.ok (),
    transcribe := fun _ _ _ =>
      Except.error "Failed to load audio: invalid data" }

/-- A world where model.transcribe returns a dictionary without a "text"
entry. -/
def envNoText : Env :=
  { fileExists := fun _ => true,
    loadModel := fun _ => Except.ok (),
    transcribe := fun _ _ _ => Except.ok ⟨[("language", "es")]⟩ }

/-! ## Helper lemmas -/

/-- A single non-option token parses as the positional audio_file. -/
lemma parseArgs_single (f : String) (h : isOptionLike f = false) :
    parseArgs [f] = ParseOutcome.ok f none := by
  simp [parseArgs, parseLoop, h, finishParse]

/-- With one non-option token, the main block reduces to transcribe_audio
with no language. -/
lemma mainProgram_single (env : Env) (f : String) (h : isOptionLike f = false) :
    mainProgram env [f] = transcribe_audio env f none := by
  simp [mainProgram, parseArgs_single f h]

/-- A positional followed by -l and a non-option value parses to that
audio_file and that language, the value taken verbatim. -/
lemma parseArgs_lang (f s : String) (hf : isOptionLike f = false)
    (hs : isOptionLike s = false) :
    parseArgs [f, "-l", s] = ParseOutcome.ok f (some s) := by
  have hl : isOptionLike "-l" = true := by decide
  simp [parseArgs, parseLoop, hf, hs, hl, finishParse]

/-- With a positional, -l and a non-option value, the main block reduces to
transcribe_audio with that language. -/
lemma mainProgram_lang (env : Env) (f s : String) (hf : isOptionLike f = false)
    (hs : isOptionLike s = false) :
    mainProgram env [f, "-l", s] = transcribe_audio env f (some s) := by
  simp [mainProgram, parseArgs_lang f s hf hs]

/-- Every json.dumps output opens with a brace. -/
lemma jsonDumps_head (fs : List (String × String)) :
    (jsonDumps fs).data.head? = some '\x7b' := rfl

/-- The generic error message opens with its literal prefix. -/
lemma transcribeErrorMessage_head (e : String) :
    (transcribeErrorMessage e).data.head? = some 'E' := rfl

/-- The file-not-found message opens with its literal prefix. -/
lemma notFoundMessage_head (p : String) :
    (notFoundMessage p).data.head? = some 'A' := rfl

/-- The generic error message is never the file-not-found message: their
first characters differ. -/
lemma transcribeErrorMessage_ne_notFoundMessage (e p : String) :
    transcribeErrorMessage e ≠ notFoundMessage p := by
  intro h
  have h2 : (transcribeErrorMessage e).data.head? =
      (notFoundMessage p).data.head? := by rw [h]
  rw [transcribeErrorMessage_head, notFoundMessage_head] at h2
  exact absurd h2 (by decide)

/-- A stream that holds exactly one json.dumps serialization of a flat
string dictionary: the shape of every JSON object this program emits. -/
def isSingleJsonObject (lines : List String) : Prop :=
  ∃ fs, lines = [jsonDumps fs]

/-- The help text is not a JSON object: it opens with the letter u of
"usage:", not with a brace. -/
lemma helpText_not_json : ¬ isSingleJsonObject [helpText] := by
  rintro ⟨fs, h⟩
  have h2 : helpText = jsonDumps fs := by
    simpa using h
  have h3 : helpText.data.head? = (jsonDumps fs).data.head? := by rw [h2]
  rw [jsonDumps_head] at h3
  exact absurd h3 (by decide)

/-! ## The claims -/

/-- C1: with an existing audio file, a successful transcription and no
language flag, the process exits 0, stdout is exactly one JSON object whose
only key is "transcription" holding the raw text field of the model result,
and stderr is empty. -/
theorem success_no_language_flag (env : Env) (path t : String)
    (r : WhisperResult)
    (hpath : isOptionLike path = false)
    (hfile : env.fileExists path = true)
    (hload : env.loadModel MODEL_SIZE = Except.ok ())
    (htr : env.transcribe path USE_FP16 none = Except.ok r)
    (htext : r.fields.lookup "text" = some t) :
    (mainProgram env [path]).exitCode = 0 ∧
    (mainProgram env [path]).stdout = [jsonDumps [("transcription", t)]] ∧
    (mainProgram env [path]).stderr = [] := by
  rw [mainProgram_single env path hpath]
  simp [transcribe_audio, hfile, hload, htr, htext]

/-- C1 witness: the successful world at a concrete path. -/
theorem success_no_language_flag_witness :
    isOptionLike "audio.mp3" = false ∧
    envOk.fileExists "audio.mp3" = true ∧
    envOk.loadModel MODEL_SIZE = Except.ok () ∧
    envOk.transcribe "audio.mp3" USE_FP16 none =
      Except.ok ⟨[("text", "hola mundo")]⟩ ∧
    ((mainProgram envOk ["audio.mp3"]).exitCode = 0 ∧
     (mainProgram envOk ["audio.mp3"]).stdout =
       [jsonDumps [("transcription", "hola mundo")]] ∧
     (mainProgram envOk ["audio.mp3"]).stderr = []) :=
  ⟨by decide, rfl, rfl, rfl,
   success_no_language_flag envOk "audio.mp3" "hola mundo"
     ⟨[("text", "hola mundo")]⟩ (by decide) rfl rfl rfl rfl⟩

/-- C2: with a nonexistent audio-file path, the process exits 1, stderr is a
JSON object with an "error" key, and stdout is empty. -/
theorem missing_file_reports_json_error (env : Env) (path : String)
    (hpath : isOptionLike path = false)
    (hfile : env.fileExists path = false) :
    (mainProgram env [path]).exitCode = 1 ∧
    (mainProgram env [path]).stderr =
      [jsonDumps [("error", notFoundMessage path)]] ∧
    (mainProgram env [path]).stdout = [] := by
  rw [mainProgram_single env path hpath]
  simp [transcribe_audio, hfile]

/-- C2 witness: the world with no files, at a concrete path. -/
theorem missing_file_reports_json_error_witness :
    isOptionLike "missing.wav" = false ∧
    envMissing.fileExists "missing.wav" = false ∧
    ((mainProgram envMissing ["missing.wav"]).exitCode = 1 ∧
     (mainProgram envMissing ["missing.wav"]).stderr =
       [jsonDumps [("error", notFoundMessage "missing.wav")]] ∧
     (mainProgram envMissing ["missing.wav"]).stdout = []) :=
  ⟨by decide, rfl,
   missing_file_reports_json_error envMissing "missing.wav" (by decide) rfl⟩

/-- C3: every failure raised during model loading or during transcription is
caught: the run ends with exit code 1, a JSON error object on stderr and
nothing on stdout — never an unhandled fault. -/
theorem model_failure_reports_json_error (env : Env) (path e : String)
    (lang : Option String)
    (hfile : env.fileExists path = true)
    (hfail : env.loadModel MODEL_SIZE = Except.error e ∨
             (env.loadModel MODEL_SIZE = Except.ok () ∧
              env.transcribe path USE_FP16 lang = Except.error e)) :
    (transcribe_audio env path lang).exitCode = 1 ∧
    (transcribe_audio env path lang).stderr =
      [jsonDumps [("error", transcribeErrorMessage e)]] ∧
    (transcribe_audio env path lang).stdout = [] := by
  rcases hfail with hl | ⟨hl, ht⟩
  · simp [transcribe_audio, hfile, hl]
  · simp [transcribe_audio, hfile, hl, ht]

/-- C3 witness: the world where model loading raises, at a concrete path. -/
theorem model_failure_reports_json_error_witness :
    envLoadFail.fileExists "clip.mp3" = true ∧
    envLoadFail.loadModel MODEL_SIZE =
      Except.error "failed to fetch model weights" ∧
    ((transcribe_audio envLoadFail "clip.mp3" none).exitCode = 1 ∧
     (transcribe_audio envLoadFail "clip.mp3" none).stderr =
       [jsonDumps [("error",
          transcribeErrorMessage "failed to fetch model weights")]] ∧
     (transcribe_audio envLoadFail "clip.mp3" none).stdout = []) :=
  ⟨rfl, rfl,
   model_failure_reports_json_error envLoadFail "clip.mp3"
     "failed to fetch model weights" none rfl (Or.inl rfl)⟩

/-- C4 counterexample: the claim says no exit code other than 0 and 1 is
ever produced, but invoking with just "-l" (an option missing its value)
makes argparse call parser.error, which exits with code 2. -/
theorem parse_error_exit_code_two :
    (mainProgram envOk ["-l"]).exitCode = 2 ∧
    (mainProgram envOk ["-l"]).exitCode ≠ 0 ∧
    (mainProgram envOk ["-l"]).exitCode ≠ 1 := by decide

/-- C4 amended: the exit code is 0 (help, or a successful transcription
printed to stdout), 1 (the no-argument help, or a JSON error printed to
stderr), or 2 (an argument-parse error, with the usage text on stderr);
no other exit code is produced. -/
theorem exit_code_classification (env : Env) (argv : List String) :
    ((mainProgram env argv).exitCode = 0 ∧
       ((mainProgram env argv).stdout = [helpText] ∨
        ∃ t, (mainProgram env argv).stdout =
               [jsonDumps [("transcription", t)]])) ∨
    ((mainProgram env argv).exitCode = 1 ∧
       ((mainProgram env argv).stderr = [helpText] ∨
        ∃ m, (mainProgram env argv).stderr = [jsonDumps [("error", m)]])) ∨
    ((mainProgram env argv).exitCode = 2 ∧
       ∃ m, parseArgs argv = ParseOutcome.err m ∧
            (mainProgram env argv).stderr = [errorText m]) := by
  by_cases hargv : argv = []
  · subst hargv
    right; left
    simp [mainProgram, helpText]
  · cases hp : parseArgs argv with
    | ok f lang =>
      have hm : mainProgram env argv = transcribe_audio env f lang := by
        simp [mainProgram, hargv, hp]
      rw [hm]
      by_cases hfile : env.fileExists f = false
      · right; left
        simp [transcribe_audio, hfile]
        exact Or.inr ⟨_, rfl⟩
      · rw [Bool.not_eq_false] at hfile
        rcases hl : env.loadModel MODEL_SIZE with e | u
        · right; left
          simp [transcribe_audio, hfile, hl]
          exact Or.inr ⟨_, rfl⟩
        · rcases ht : env.transcribe f USE_FP16 lang with e | r
          · right; left
            simp [transcribe_audio, hfile, hl, ht]
            exact Or.inr ⟨_, rfl⟩
          · rcases hx : r.fields.lookup "text" with _ | t
            · right; left
              simp [transcribe_audio, hfile, hl, ht, hx]
              exact Or.inr ⟨_, rfl⟩
            · left
              simp [transcribe_audio, hfile, hl, ht, hx]
              exact Or.inr ⟨t, rfl⟩
    | help =>
      left
      simp [mainProgram, hargv, hp]
    | err m =>
      right; right
      simp [mainProgram, hargv, hp]

/-- C5 counterexample: the claim says every run exiting nonzero has a single
parseable JSON object as its stderr output, but the run with no arguments
exits 1 with the argparse help text — which opens with "usage:", not with a
brace — on stderr. -/
theorem no_args_failure_not_json :
    (mainProgram envOk []).exitCode = 1 ∧
    (mainProgram envOk []).stderr = [helpText] ∧
    ¬ isSingleJsonObject [helpText] :=
  ⟨rfl, rfl, helpText_not_json⟩

/-- C5 amended: for every run that reaches transcribe_audio (one that parses
its arguments), a successful exit carries a single JSON object on stdout and
nothing on stderr, and a failing exit carries a single JSON object on stderr
and nothing on stdout; runs rejected at the argument stage print usage or
help text instead. -/
theorem transcribe_streams_json (env : Env) (path : String)
    (lang : Option String) :
    ((transcribe_audio env path lang).exitCode = 0 ∧
     isSingleJsonObject (transcribe_audio env path lang).stdout ∧
     (transcribe_audio env path lang).stderr = []) ∨
    ((transcribe_audio env path lang).exitCode = 1 ∧
     isSingleJsonObject (transcribe_audio env path lang).stderr ∧
     (transcribe_audio env path lang).stdout = []) := by
  by_cases hfile : env.fileExists path = false
  · right
    simp [transcribe_audio, hfile, isSingleJsonObject]
  · rw [Bool.not_eq_false] at hfile
    rcases hl : env.loadModel MODEL_SIZE with e | u
    · right
      simp [transcribe_audio, hfile, hl, isSingleJsonObject]
    · rcases ht : env.transcribe path USE_FP16 lang with e | r
      · right
        simp [transcribe_audio, hfile, hl, ht, isSingleJsonObject]
      · rcases hx : r.fields.lookup "text" with _ | t
        · right
          simp [transcribe_audio, hfile, hl, ht, hx, isSingleJsonObject]
        · left
          simp [transcribe_audio, hfile, hl, ht, hx, isSingleJsonObject]

/-- C6: invoked with no command-line arguments, the program prints the help
text to stderr and exits with code 1. -/
theorem no_arguments_prints_usage (env : Env) :
    (mainProgram env []).exitCode = 1 ∧
    (mainProgram env []).stderr = [helpText] ∧
    (mainProgram env []).stdout = [] := by
  simp [mainProgram]

/-- C7: when the given path does not exist, the existence check fires before
any model operation: no call into the whisper library is made at all, and
the run exits 1. -/
theorem missing_file_never_touches_model (env : Env) (path : String)
    (lang : Option String)
    (hfile : env.fileExists path = false) :
    (transcribe_audio env path lang).events = [] ∧
    (transcribe_audio env path lang).exitCode = 1 := by
  simp [transcribe_audio, hfile]

/-- C7 witness: the world with no files, at a concrete path. -/
theorem missing_file_never_touches_model_witness :
    envMissing.fileExists "gone.ogg" = false ∧
    ((transcribe_audio envMissing "gone.ogg" none).events = [] ∧
     (transcribe_audio envMissing "gone.ogg" none).exitCode = 1) :=
  ⟨rfl, missing_file_never_touches_model envMissing "gone.ogg" none rfl⟩

/-- C8: any language string given through -l is passed to the model verbatim
and unvalidated, and the observable behavior has the shape of the no-flag
success: exit 0, one "transcription" JSON object on stdout, empty stderr;
the event trace shows the unchanged string handed to model.transcribe. -/
theorem language_flag_passthrough (env : Env) (path s t : String)
    (r : WhisperResult)
    (hpath : isOptionLike path = false)
    (hs : isOptionLike s = false)
    (hfile : env.fileExists path = true)
    (hload : env.loadModel MODEL_SIZE = Except.ok ())
    (htr : env.transcribe path USE_FP16 (some s) = Except.ok r)
    (htext : r.fields.lookup "text" = some t) :
    (mainProgram env [path, "-l", s]).exitCode = 0 ∧
    (mainProgram env [path, "-l", s]).stdout =
      [jsonDumps [("transcription", t)]] ∧
    (mainProgram env [path, "-l", s]).stderr = [] ∧
    (mainProgram env [path, "-l", s]).events =
      [Event.loadModel MODEL_SIZE,
       Event.transcribe path USE_FP16 (some s)] := by
  rw [mainProgram_lang env path s hpath hs]
  simp [transcribe_audio, hfile, hload, htr, htext]

/-- C8 witness: a syntactically arbitrary language string, passed through at
a concrete path. -/
theorem language_flag_passthrough_witness :
    isOptionLike "voice.m4a" = false ∧
    isOptionLike "not_an_iso_code!!" = false ∧
    envOk.fileExists "voice.m4a" = true ∧
    envOk.loadModel MODEL_SIZE = Except.ok () ∧
    envOk.transcribe "voice.m4a" USE_FP16 (some "not_an_iso_code!!") =
      Except.ok ⟨[("text", "hola mundo")]⟩ ∧
    ((mainProgram envOk ["voice.m4a", "-l", "not_an_iso_code!!"]).exitCode = 0 ∧
     (mainProgram envOk ["voice.m4a", "-l", "not_an_iso_code!!"]).stdout =
       [jsonDumps [("transcription", "hola mundo")]] ∧
     (mainProgram envOk ["voice.m4a", "-l", "not_an_iso_code!!"]).stderr = [] ∧
     (mainProgram envOk ["voice.m4a", "-l", "not_an_iso_code!!"]).events =
       [Event.loadModel MODEL_SIZE,
        Event.transcribe "voice.m4a" USE_FP16 (some "not_an_iso_code!!")]) :=
  ⟨by decide, by decide, rfl, rfl, rfl,
   language_flag_passthrough envOk "voice.m4a" "not_an_iso_code!!"
     "hola mundo" ⟨[("text", "hola mundo")]⟩
     (by decide) (by decide) rfl rfl rfl rfl⟩

/-- C9: if, after the model call returns, reading result["text"] raises (the
key is absent, a KeyError whose str is the quoted key), the same except
clause still writes a JSON error object to stderr and the process exits 1. -/
theorem missing_text_key_still_json_error (env : Env) (path : String)
    (lang : Option String) (r : WhisperResult)
    (hfile : env.fileExists path = true)
    (hload : env.loadModel MODEL_SIZE = Except.ok ())
    (htr : env.transcribe path USE_FP16 lang = Except.ok r)
    (hx : r.fields.lookup "text" = none) :
    (transcribe_audio env path lang).exitCode = 1 ∧
    (transcribe_audio env path lang).stderr =
      [jsonDumps [("error", transcribeErrorMessage "\x27text\x27")]] ∧
    (transcribe_audio env path lang).stdout = [] := by
  simp [transcribe_audio, hfile, hload, htr, hx]

/-- C9 witness: the world whose result dictionary has no "text" entry. -/
theorem missing_text_key_still_json_error_witness :
    envNoText.fileExists "talk.wav" = true ∧
    envNoText.loadModel MODEL_SIZE = Except.ok () ∧
    envNoText.transcribe "talk.wav" USE_FP16 none =
      Except.ok ⟨[("language", "es")]⟩ ∧
    (⟨[("language", "es")]⟩ : WhisperResult).fields.lookup "text" = none ∧
    ((transcribe_audio envNoText "talk.wav" none).exitCode = 1 ∧
     (transcribe_audio envNoText "talk.wav" none).stderr =
       [jsonDumps [("error", transcribeErrorMessage "\x27text\x27")]] ∧
     (transcribe_audio envNoText "talk.wav" none).stdout = []) :=
  ⟨rfl, rfl, rfl, by decide,
   missing_text_key_still_json_error envNoText "talk.wav" none
     ⟨[("language", "es")]⟩ rfl rfl rfl (by decide)⟩

/-- C10: a path that exists but that the model rejects passes the existence
check, is handed to the model (the event trace shows both library calls),
and the failure is reported with the generic message — which is never the
file-not-found message. -/
theorem existing_unreadable_path_generic_error (env : Env) (path e : String)
    (lang : Option String)
    (hfile : env.fileExists path = true)
    (hload : env.loadModel MODEL_SIZE = Except.ok ())
    (htr : env.transcribe path USE_FP16 lang = Except.error e) :
    (transcribe_audio env path lang).exitCode = 1 ∧
    (transcribe_audio env path lang).events =
      [Event.loadModel MODEL_SIZE,
       Event.transcribe path USE_FP16 lang] ∧
    (transcribe_audio env path lang).stderr =
      [jsonDumps [("error", transcribeErrorMessage e)]] ∧
    transcribeErrorMessage e ≠ notFoundMessage path := by
  refine ⟨?_, ?_, ?_, transcribeErrorMessage_ne_notFoundMessage e path⟩ <;>
    simp [transcribe_audio, hfile, hload, htr]

/-- C10 witness: a world where the existing path is rejected by the model. -/
theorem existing_unreadable_path_generic_error_witness :
    envBadAudio.fileExists "somedir" = true ∧
    envBadAudio.loadModel MODEL_SIZE = Except.ok () ∧
    envBadAudio.transcribe "somedir" USE_FP16 none =
      Except.error "Failed to load audio: invalid data" ∧
    ((transcribe_audio envBadAudio "somedir" none).exitCode = 1 ∧
     (transcribe_audio envBadAudio "somedir" none).events =
       [Event.loadModel MODEL_SIZE,
        Event.transcribe "somedir" USE_FP16 none] ∧
     (transcribe_audio envBadAudio "somedir" none).stderr =
       [jsonDumps [("error",
          transcribeErrorMessage "Failed to load audio: invalid data")]] ∧
     transcribeErrorMessage "Failed to load audio: invalid data" ≠
       notFoundMessage "somedir") :=
  ⟨rfl, rfl, rfl,
   existing_unreadable_path_generic_error envBadAudio "somedir"
     "Failed to load audio: invalid data" none rfl rfl rfl⟩

end TranscribePy
